import Mathlib

/-!
Verification of the kembridge AI risk engine (`src/ai-engine`).

Shallow embedding of the Python modules:
  * `models/blacklist_checker.py`  — `BlacklistChecker`
  * `models/simple_risk_analyzer.py` — `SimpleRiskAnalyzer`
  * `models/risk_analyzer.py`      — `RiskAnalyzer` (hybrid / ML)
  * `models/common_rules.py`       — `rule_based_score`, `determine_risk_level`
  * `config.py`                    — `Settings` thresholds

Numeric scores are modelled with `ℚ`.  On every concrete scenario appearing
in the claims the Python float computations round to exactly the rational
values (the partial sums 0.1+0.4, 0.1+0.4+0.3, 0.1+0.1+0.1+0.2 all round to
the doubles nearest 0.5, 0.8, 0.5 respectively, and the comparisons against
the literal thresholds coincide with the rational comparisons), so the
rational embedding agrees with the source on those inputs.

Python `Dict` payloads become structures; `dict.get` with a default becomes
a total accessor with the same default; exceptions become `Except` values
driven by an explicit fault model (the ML library calls are the only code
in scope that can raise); the sklearn model objects are abstracted as an
oracle function from a transaction to the model outputs that
`_ml_analysis` reads from them.  Python's `str.lower()` is modelled by the
structurally recursive `pyLower` (identical to `String.toLower` on the
ASCII data handled here, but kernel-evaluable on concrete inputs).
-/

namespace Kembridge

/-- `user_history` sub-dictionary of a transaction payload.
Fields mirror the keys read by the Python code
(`total_transactions`, `total_volume`, `avg_transaction_size`,
`days_since_first_tx`, `high_risk_ratio`, `is_new_user`). -/
structure UserHistory where
  totalTransactions : Nat
  totalVolume : ℚ
  avgTransactionSize : ℚ
  daysSinceFirstTx : ℚ
  highRiskRatio : ℚ
  isNewUser : Bool
deriving DecidableEq, Repr

/-- A transaction payload as consumed by the analyzers.  `userAddress = none`
models a missing or falsy `user_address` key; `userHistory = none` models a
missing `user_history` key (the Python code then reads defaults out of `{}`). -/
structure TransactionData where
  amountIn : ℚ
  sourceChain : String
  destinationChain : String
  userAddress : Option String
  userHistory : Option UserHistory
  hourOfDay : ℚ
deriving DecidableEq, Repr

/-- `transaction_data.get('user_history', {}).get('is_new_user', True)` -/
def histIsNewUser (h : Option UserHistory) : Bool :=
  match h with
  | none => true
  | some u => u.isNewUser

/-- `user_history.get('high_risk_ratio', 0)` -/
def histHighRiskRatio (h : Option UserHistory) : ℚ :=
  match h with
  | none => 0
  | some u => u.highRiskRatio

/-- `user_history.get('avg_transaction_size', 0)` -/
def histAvgTransactionSize (h : Option UserHistory) : ℚ :=
  match h with
  | none => 0
  | some u => u.avgTransactionSize

/-- `user_history.get('total_transactions', 0)` -/
def histTotalTransactions (h : Option UserHistory) : Nat :=
  match h with
  | none => 0
  | some u => u.totalTransactions

/-- `user_history.get('total_volume', 0)` -/
def histTotalVolume (h : Option UserHistory) : ℚ :=
  match h with
  | none => 0
  | some u => u.totalVolume

/-- `user_history.get('days_since_first_tx', 0)` -/
def histDaysSinceFirstTx (h : Option UserHistory) : ℚ :=
  match h with
  | none => 0
  | some u => u.daysSinceFirstTx

/-- ASCII case folding of one character, as `str.lower()` does on the
addresses and chain names in scope. -/
def pyLowerChar (c : Char) : Char := c.toLower

/-- Python `s.lower()` (structural recursion over the character data). -/
def pyLower (s : String) : String := String.mk (s.data.map pyLowerChar)

/-- The result dictionary produced by the blacklist checker
(`is_blacklisted`, `reason`, `source`, `risk_score_increase`). -/
structure BlacklistVerdict where
  isBlacklisted : Bool
  reason : Option String
  source : Option String
  riskScoreIncrease : ℚ
deriving DecidableEq, Repr

/-- The all-clear verdict both checker methods start from. -/
def cleanVerdict : BlacklistVerdict :=
  { isBlacklisted := false, reason := none, source := none, riskScoreIncrease := 0 }

/-- In-memory state of a `BlacklistChecker`: the Ethereum static set and the
NEAR set (the external-API cache is out of scope for the claims). -/
structure BlacklistChecker where
  staticBlacklist : List String
  nearBlacklist : List String
deriving DecidableEq, Repr

/-- The sets installed by `BlacklistChecker.__init__`. -/
def initialChecker : BlacklistChecker :=
  { staticBlacklist :=
      [ "0x000000000000000000000000000000000000dead"
      , "0x0000000000000000000000000000000000000000"
      , "0x1234567890123456789012345678901234567890"
      , "0xdeadbeefdeadbeefdeadbeefdeadbeefdeadbeef" ]
  , nearBlacklist := [ "scammer.near", "phishing.near", "fake-wallet.near" ] }

/-- Whether the character list `n` is an initial segment of `h`. -/
def startsWithL : List Char → List Char → Bool
  | [], _ => true
  | _ :: _, [] => false
  | a :: as, b :: bs => a == b && startsWithL as bs

/-- Whether `n` occurs contiguously inside `h` (Python `n in h` on strings). -/
def containsSubL (n : List Char) : List Char → Bool
  | [] => startsWithL n []
  | b :: bs => startsWithL n (b :: bs) || containsSubL n bs

/-- Python substring test `needle in haystack`. -/
def containsSub (needle haystack : String) : Bool :=
  containsSubL needle.toList haystack.toList

/-- The fixed `suspicious_patterns` list from `is_ethereum_address_blacklisted`. -/
def suspiciousPatterns : List String := ["0x000000", "0xffffff", "deadbeef"]

/-- The fixed `suspicious_keywords` list from `is_near_address_blacklisted`. -/
def suspiciousKeywords : List String := ["scam", "phish", "fake", "fraud", "hack"]

/-- `BlacklistChecker.is_ethereum_address_blacklisted`. -/
def isEthereumAddressBlacklisted (bc : BlacklistChecker) (address : String) :
    BlacklistVerdict :=
  let addressLower := pyLower address
  if addressLower ∈ bc.staticBlacklist then
    { isBlacklisted := true
    , reason := some "Address in static blacklist"
    , source := some "kembridge_static"
    , riskScoreIncrease := 1 }
  else
    match suspiciousPatterns.find? (fun p => containsSub p addressLower) with
    | some p =>
        { isBlacklisted := true
        , reason := some ("Suspicious address pattern: " ++ p)
        , source := some "pattern_detection"
        , riskScoreIncrease := 1/2 }
    | none => cleanVerdict

/-- `BlacklistChecker.is_near_address_blacklisted`. -/
def isNearAddressBlacklisted (bc : BlacklistChecker) (address : String) :
    BlacklistVerdict :=
  if address ∈ bc.nearBlacklist then
    { isBlacklisted := true
    , reason := some "NEAR address in blacklist"
    , source := some "kembridge_near_static"
    , riskScoreIncrease := 1 }
  else
    match suspiciousKeywords.find? (fun k => containsSub k (pyLower address)) with
    | some k =>
        { isBlacklisted := true
        , reason := some ("Suspicious NEAR account name contains: " ++ k)
        , source := some "near_pattern_detection"
        , riskScoreIncrease := 7/10 }
    | none => cleanVerdict

/-- `BlacklistChecker.check_address`: dispatch on the lower-cased chain name;
an unsupported chain yields the clean verdict (the logged warning is I/O,
outside the model, and the surrounding `except` arm returns the same value). -/
def checkAddress (bc : BlacklistChecker) (address chain : String) :
    BlacklistVerdict :=
  if pyLower chain = "ethereum" then isEthereumAddressBlacklisted bc address
  else if pyLower chain = "near" then isNearAddressBlacklisted bc address
  else cleanVerdict

/-- `BlacklistChecker.add_to_blacklist`: returns the updated state and the
success boolean; an unsupported chain leaves the state untouched. -/
def addToBlacklist (bc : BlacklistChecker) (address chain _reason : String) :
    BlacklistChecker × Bool :=
  if pyLower chain = "ethereum" then
    ({ bc with staticBlacklist := pyLower address :: bc.staticBlacklist }, true)
  else if pyLower chain = "near" then
    ({ bc with nearBlacklist := address :: bc.nearBlacklist }, true)
  else (bc, false)

/-- The decision dictionary returned by `analyze_risk` in both analyzers:
`risk_score`, `risk_level`, `is_anomaly`, `anomaly_score`, `ml_confidence`,
`risk_factors`, `recommended_action`, `approved`, `blacklist_check`. -/
structure Decision where
  riskScore : ℚ
  riskLevel : String
  isAnomaly : Bool
  anomalyScore : Option ℚ
  mlConfidence : ℚ
  riskFactors : List String
  recommendedAction : String
  approved : Bool
  blacklistCheck : BlacklistVerdict
deriving DecidableEq, Repr

/-- The `_check_blacklist` helper shared verbatim by both analyzers: consult
the checker on `user_address` (when present and non-empty) against the
source chain, keep a flagged verdict, otherwise the clean result. -/
def checkTxBlacklist (bc : BlacklistChecker) (tx : TransactionData) :
    BlacklistVerdict :=
  match tx.userAddress with
  | none => cleanVerdict
  | some a =>
    if a = "" then cleanVerdict
    else
      let r := checkAddress bc a tx.sourceChain
      if r.isBlacklisted then r else cleanVerdict

/-- The forced decision both analyzers return from `analyze_risk` when
`_check_blacklist` reports a hit.  The Python code puts the raw `reason`
value in the `risk_factors` list; `check_address` always supplies a string
reason on a hit, so the `getD` default is never read on reachable inputs. -/
def blacklistHitDecision (bl : BlacklistVerdict) : Decision :=
  { riskScore := 1
  , riskLevel := "high"
  , isAnomaly := true
  , anomalyScore := some (-1)
  , mlConfidence := 1
  , riskFactors := [bl.reason.getD ""]
  , recommendedAction := "block_transaction"
  , approved := false
  , blacklistCheck := bl }

/-- The velocity trigger shared by `common_rules.rule_based_score` and
`SimpleRiskAnalyzer._rule_based_analysis`: not a new user, positive known
average, and amount more than five times that average. -/
def velocityTriggers (tx : TransactionData) : Bool :=
  let h := tx.userHistory
  !histIsNewUser h && decide (0 < histAvgTransactionSize h)
    && decide (histAvgTransactionSize h * 5 < tx.amountIn)

/-- The additive rule score of `common_rules.rule_based_score` before the
final clamp.  `SimpleRiskAnalyzer._rule_based_analysis` contains the same
accumulation verbatim; the source interleaves the score increments with the
factor appends of `ruleFactors`, which test exactly the same conditions. -/
def ruleScoreRaw (tx : TransactionData) : ℚ :=
  let amount := tx.amountIn
  let s1 : ℚ := 1/10
  let s2 :=
    if 100 < amount then s1 + 4/10
    else if 10 < amount then s1 + 2/10
    else if 1 < amount then s1 + 1/10
    else s1
  let s3 := if tx.sourceChain ≠ tx.destinationChain then s2 + 1/10 else s2
  let h := tx.userHistory
  let s4 :=
    if histIsNewUser h then s3 + 2/10
    else if (3:ℚ)/10 < histHighRiskRatio h then s3 + 2/10
    else s3
  if velocityTriggers tx then s4 + 3/10 else s4

/-- The factor strings accumulated alongside `ruleScoreRaw` (same order and
conditions as the source's appends). -/
def ruleFactors (tx : TransactionData) : List String :=
  let amount := tx.amountIn
  let f2 : List String :=
    if 100 < amount then ["Very large transaction amount (>100)"]
    else if 10 < amount then ["Large transaction amount (>10)"]
    else if 1 < amount then ["Medium transaction amount (>1)"]
    else []
  let f3 :=
    if tx.sourceChain ≠ tx.destinationChain then f2 ++ ["Cross-chain transaction"]
    else f2
  let h := tx.userHistory
  let f4 :=
    if histIsNewUser h then f3 ++ ["New user with no transaction history"]
    else if (3:ℚ)/10 < histHighRiskRatio h then
      f3 ++ ["User has history of high-risk transactions"]
    else f3
  if velocityTriggers tx then
    f4 ++ ["Transaction significantly larger than user average"]
  else f4

/-- `common_rules.rule_based_score`: clamped score with its factor list. -/
def ruleBasedScore (tx : TransactionData) : ℚ × List String :=
  (min (ruleScoreRaw tx) 1, ruleFactors tx)

/-- The risk thresholds of `config.Settings` (the other settings fields are
service plumbing outside the engine). -/
structure Settings where
  riskThresholdLow : ℚ
  riskThresholdMedium : ℚ
  riskThresholdHigh : ℚ
deriving DecidableEq, Repr

/-- The default threshold values installed by `Settings()`. -/
def defaultSettings : Settings :=
  { riskThresholdLow := 3/10, riskThresholdMedium := 6/10, riskThresholdHigh := 8/10 }

/-- `common_rules.determine_risk_level`, parametrized by the settings it
reads the three thresholds from. -/
def determineRiskLevel (cfg : Settings) (score : ℚ) : String × Bool × String :=
  if score < cfg.riskThresholdLow then ("low", true, "proceed")
  else if score < cfg.riskThresholdMedium then
    ("medium", true, "proceed_with_monitoring")
  else if score < cfg.riskThresholdHigh then
    ("high", false, "manual_review_required")
  else ("critical", false, "block_transaction")

/-- The hard-coded 0.3/0.6/0.8 classification used inside
`SimpleRiskAnalyzer._rule_based_analysis` and (identically) by
`RiskAnalyzer._determine_risk_level`. -/
def hybridDetermineRiskLevel (score : ℚ) : String × Bool × String :=
  if score < 3/10 then ("low", true, "proceed")
  else if score < 6/10 then ("medium", true, "proceed_with_monitoring")
  else if score < 8/10 then ("high", false, "manual_review_required")
  else ("critical", false, "block_transaction")

/-- `SimpleRiskAnalyzer._rule_based_analysis`: rule accumulation, blacklist
increment and reason, clamp, hard-coded classification, and the
non-empty-factors placeholder. -/
def simpleRuleBasedAnalysis (tx : TransactionData) (bl : BlacklistVerdict) :
    Decision :=
  let score := min (ruleScoreRaw tx + bl.riskScoreIncrease) 1
  let lvl := hybridDetermineRiskLevel score
  let f :=
    match bl.reason with
    | some r => ruleFactors tx ++ [r]
    | none => ruleFactors tx
  let factors := if f = [] then ["Transaction appears normal"] else f
  { riskScore := score
  , riskLevel := lvl.1
  , isAnomaly := decide ((7:ℚ)/10 < score)
  , anomalyScore := none
  , mlConfidence := 7/10
  , riskFactors := factors
  , recommendedAction := lvl.2.2
  , approved := lvl.2.1
  , blacklistCheck := bl }

/-- `SimpleRiskAnalyzer._emergency_fallback`.  (The Python dictionary under
`blacklist_check` carries only the `is_blacklisted` and `reason` keys; it is
modelled by the clean verdict.) -/
def simpleEmergencyFallback : Decision :=
  { riskScore := 1/2
  , riskLevel := "medium"
  , isAnomaly := false
  , anomalyScore := none
  , mlConfidence := 0
  , riskFactors := ["Risk analysis system error - manual review required"]
  , recommendedAction := "manual_review_required"
  , approved := false
  , blacklistCheck := cleanVerdict }

/-- The body of `SimpleRiskAnalyzer.analyze_risk` inside its `try`. -/
def simpleAnalyzeRisk (bc : BlacklistChecker) (tx : TransactionData) : Decision :=
  let bl := checkTxBlacklist bc tx
  if bl.isBlacklisted then blacklistHitDecision bl
  else simpleRuleBasedAnalysis tx bl

/-- `SimpleRiskAnalyzer.analyze_risk` with its `try`/`except` arm: `fault`
models an exception escaping the analysis body (the body is pure in the
source, so the arm is a safety net); any such exception is absorbed into the
emergency decision and never reaches the caller. -/
def simpleAnalyzeRiskF (fault : Bool) (bc : BlacklistChecker)
    (tx : TransactionData) : Decision :=
  if fault then simpleEmergencyFallback else simpleAnalyzeRisk bc tx

/-- `RiskAnalyzer._rule_based_analysis`: the hybrid analyzer's private rule
score — same tiers as the shared engine but with no factor strings and no
velocity term — already clamped on return. -/
def hybridRuleScore (tx : TransactionData) : ℚ :=
  let amount := tx.amountIn
  let s1 : ℚ := 1/10
  let s2 :=
    if 100 < amount then s1 + 4/10
    else if 10 < amount then s1 + 2/10
    else if 1 < amount then s1 + 1/10
    else s1
  let s3 := if tx.sourceChain ≠ tx.destinationChain then s2 + 1/10 else s2
  let h := tx.userHistory
  let s4 :=
    if histIsNewUser h then s3 + 2/10
    else if (3:ℚ)/10 < histHighRiskRatio h then s3 + 2/10
    else s3
  min s4 1

/-- Stand-in for Python float formatting inside the `f"Large amount: …"`
message of `_identify_risk_factors` (the rendered text is never compared by
the engine). -/
def amountText (q : ℚ) : String := toString q

/-- `RiskAnalyzer._identify_risk_factors`.  The `features` array argument of
the source is never read, only the transaction dictionary, so it is omitted.
Note that, unlike the rule paths, there is no non-empty placeholder here. -/
def identifyRiskFactors (tx : TransactionData) : List String :=
  let amount := tx.amountIn
  let f1 : List String :=
    if 50 < amount then ["Large amount: " ++ amountText amount] else []
  let h := tx.userHistory
  let f2 :=
    if histIsNewUser h then f1 ++ ["New user with no history"]
    else if (3:ℚ)/10 < histHighRiskRatio h then
      f1 ++ ["User has history of high-risk transactions"]
    else f1
  if 0 < histTotalTransactions h ∧ histAvgTransactionSize h * 5 < amount then
    f2 ++ ["Transaction much larger than user average"]
  else f2

/-- The values `_ml_analysis` reads from the fitted sklearn models on the
scaled feature row: `risk_proba[1]` (or the 0.5 default when the classifier
saw a single class), the isolation-forest decision value, the -1-prediction
flag, and `max(risk_proba)`.  The models themselves are opaque learned
artifacts; they enter the embedding as this oracle. -/
structure MlModelOutputs where
  mlRiskScore : ℚ
  anomalyScore : ℚ
  isAnomaly : Bool
  maxProba : ℚ
deriving DecidableEq, Repr

/-- The weighted combination and decision assembly of
`RiskAnalyzer._ml_analysis` (its `try` body after the model calls). -/
def mlAnalysis (out : MlModelOutputs) (tx : TransactionData)
    (bl : BlacklistVerdict) : Decision :=
  let combined :=
    4/10 * out.mlRiskScore
      + 3/10 * max 0 (1 - (out.anomalyScore + 1) / 2)
      + 3/10 * hybridRuleScore tx
      + bl.riskScoreIncrease
  let score := min (max combined 0) 1
  let lvl := hybridDetermineRiskLevel score
  let factors :=
    match bl.reason with
    | some r => identifyRiskFactors tx ++ [r]
    | none => identifyRiskFactors tx
  { riskScore := score
  , riskLevel := lvl.1
  , isAnomaly := out.isAnomaly
  , anomalyScore := some out.anomalyScore
  , mlConfidence := out.maxProba
  , riskFactors := factors
  , recommendedAction := lvl.2.2
  , approved := lvl.2.1
  , blacklistCheck := bl }

/-- `RiskAnalyzer._fallback_analysis`: rule score plus blacklist increment,
clamped, classified, with its own coarser factor strings and confidence 0.6. -/
def fallbackAnalysis (tx : TransactionData) (bl : BlacklistVerdict) : Decision :=
  let score := min (hybridRuleScore tx + bl.riskScoreIncrease) 1
  let lvl := hybridDetermineRiskLevel score
  let amount := tx.amountIn
  let f1 : List String :=
    if 100 < amount then ["Very large transaction amount"]
    else if 10 < amount then ["Large transaction amount"]
    else []
  let f2 :=
    if tx.sourceChain ≠ tx.destinationChain then f1 ++ ["Cross-chain transaction"]
    else f1
  let f3 := if histIsNewUser tx.userHistory then f2 ++ ["New user"] else f2
  let f4 := match bl.reason with
    | some r => f3 ++ [r]
    | none => f3
  let factors := if f4 = [] then ["Transaction appears normal"] else f4
  { riskScore := score
  , riskLevel := lvl.1
  , isAnomaly := decide ((7:ℚ)/10 < score)
  , anomalyScore := none
  , mlConfidence := 6/10
  , riskFactors := factors
  , recommendedAction := lvl.2.2
  , approved := lvl.2.1
  , blacklistCheck := bl }

/-- `RiskAnalyzer._emergency_fallback` — field-for-field the same dictionary
as the simple analyzer's emergency value. -/
def riskEmergencyFallback : Decision :=
  { riskScore := 1/2
  , riskLevel := "medium"
  , isAnomaly := false
  , anomalyScore := none
  , mlConfidence := 0
  , riskFactors := ["Risk analysis system error - manual review required"]
  , recommendedAction := "manual_review_required"
  , approved := false
  , blacklistCheck := cleanVerdict }

/-- Which library calls raise on the current invocation: `mlFails` models an
exception inside `_ml_analysis`'s `try` (scaler transform, model inference);
`fallbackFails` models `_fallback_analysis` itself raising, so the exception
reaches `analyze_risk`'s outer `except` arm. -/
structure FaultModel where
  mlFails : Bool
  fallbackFails : Bool
deriving DecidableEq, Repr

/-- Fault-free invocation. -/
def noFault : FaultModel := { mlFails := false, fallbackFails := false }

/-- The mutable part of a `RiskAnalyzer`: the `is_trained` flag and the
three fitted models, abstracted as the oracle they induce on a transaction. -/
structure RiskAnalyzerState where
  isTrained : Bool
  modelOracle : TransactionData → MlModelOutputs

/-- `_fallback_analysis` as a fallible call. -/
def fallbackAnalysisE (fm : FaultModel) (tx : TransactionData)
    (bl : BlacklistVerdict) : Except String Decision :=
  if fm.fallbackFails then Except.error "fallback raised"
  else Except.ok (fallbackAnalysis tx bl)

/-- `_ml_analysis` with its internal `try`/`except`: a model-layer failure is
caught there and answered by `_fallback_analysis` (whose own failure
propagates). -/
def mlAnalysisE (st : RiskAnalyzerState) (fm : FaultModel)
    (tx : TransactionData) (bl : BlacklistVerdict) : Except String Decision :=
  if fm.mlFails then fallbackAnalysisE fm tx bl
  else Except.ok (mlAnalysis (st.modelOracle tx) tx bl)

/-- The body of `RiskAnalyzer.analyze_risk` inside its outer `try`:
blacklist short-circuit, then the ML path when trained, else the fallback. -/
def riskAnalyzeRiskInner (bc : BlacklistChecker) (st : RiskAnalyzerState)
    (fm : FaultModel) (tx : TransactionData) : Except String Decision :=
  let bl := checkTxBlacklist bc tx
  if bl.isBlacklisted then Except.ok (blacklistHitDecision bl)
  else if st.isTrained then mlAnalysisE st fm tx bl
  else fallbackAnalysisE fm tx bl

/-- `RiskAnalyzer.analyze_risk`: any exception escaping the body is absorbed
into the emergency decision; the function always returns a `Decision`. -/
def riskAnalyzeRisk (bc : BlacklistChecker) (st : RiskAnalyzerState)
    (fm : FaultModel) (tx : TransactionData) : Decision :=
  match riskAnalyzeRiskInner bc st fm tx with
  | Except.ok d => d
  | Except.error _ => riskEmergencyFallback

/-- One entry of the `training_data` list passed to `retrain_models`:
a transaction payload together with its labelled `risk_score`. -/
structure TrainingSample where
  tx : TransactionData
  riskScore : ℚ
deriving DecidableEq, Repr

/-- The status dictionary returned by `retrain_models` (`status`,
`message`, `samples_used`; the success timestamp is wall-clock I/O,
outside the model). -/
structure RetrainResult where
  status : String
  message : Option String
  samplesUsed : Option Nat
deriving DecidableEq, Repr

/-- `RiskAnalyzer.retrain_models`: fewer than 10 samples answers the
insufficiency error before anything touches the models; otherwise the three
models are refit on the samples and persisted (`refit` abstracts the sklearn
fitting, which produces the new model state). -/
def retrainModels (refit : RiskAnalyzerState → List TrainingSample → RiskAnalyzerState)
    (st : RiskAnalyzerState) (samples : List TrainingSample) :
    RiskAnalyzerState × RetrainResult :=
  if samples.length < 10 then
    (st, { status := "error", message := some "Insufficient training data", samplesUsed := none })
  else
    (refit st samples,
     { status := "success", message := none, samplesUsed := some samples.length })

/-- `RiskAnalyzer.extract_features`.  The transcendental helpers are passed
in as functions: `log1pF a` models `np.log1p(a)` and `sinF h` / `cosF h`
model `np.sin(2*np.pi*h/24)` / `np.cos(2*np.pi*h/24)`; the claims about this
function concern only the arity and order of the vector, which do not depend
on those values. -/
def extractFeatures (log1pF sinF cosF : ℚ → ℚ) (tx : TransactionData) :
    List ℚ :=
  let amount := tx.amountIn
  let sourceChain := pyLower tx.sourceChain
  let destChain := pyLower tx.destinationChain
  let h := tx.userHistory
  [ amount
  , log1pF amount
  , min (amount / 1000) 1
  , if sourceChain = "ethereum" then 1 else 0
  , if sourceChain = "near" then 1 else 0
  , if destChain = "ethereum" then 1 else 0
  , if destChain = "near" then 1 else 0
  , if sourceChain ≠ destChain then 1 else 0
  , (histTotalTransactions h : ℚ)
  , histTotalVolume h
  , histAvgTransactionSize h
  , histDaysSinceFirstTx h
  , histHighRiskRatio h
  , if histIsNewUser h then 1 else 0
  , sinF tx.hourOfDay
  , cosF tx.hourOfDay ]

/-- The column count of the synthetic matrix `np.random.rand(100, 15)` on
which `_initialize_basic_models` fits the scaler, forest and classifier. -/
def initializeBasicModelsCols : Nat := 15

/-- Rank of a risk level in the order low < medium < high < critical. -/
def levelRank : String → Nat
  | "medium" => 1
  | "high" => 2
  | "critical" => 3
  | _ => 0

/-! ### Helper lemmas -/

theorem checkTxBlacklist_eq_clean (bc : BlacklistChecker) (tx : TransactionData)
    (h : (checkTxBlacklist bc tx).isBlacklisted = false) :
    checkTxBlacklist bc tx = cleanVerdict := by
  unfold checkTxBlacklist at *
  match hua : tx.userAddress with
  | none => rfl
  | some a =>
    rw [hua] at h
    by_cases he : a = ""
    · simp [he]
    · simp only [if_neg he] at h ⊢
      split at h
      · exact absurd h (by simp_all)
      · split <;> simp_all

theorem ruleScoreRaw_le_of_no_velocity (tx : TransactionData)
    (h : velocityTriggers tx = false) : ruleScoreRaw tx ≤ 8/10 := by
  simp only [ruleScoreRaw, h, Bool.false_eq_true, if_false]
  split_ifs <;> norm_num

theorem hybridRuleScore_eq_rule_min (tx : TransactionData)
    (h : velocityTriggers tx = false) :
    hybridRuleScore tx = min (ruleScoreRaw tx) 1 := by
  simp only [hybridRuleScore, ruleScoreRaw, h, Bool.false_eq_true, if_false]

theorem rat_zero_le_three_tenths : (0:ℚ) ≤ 3/10 := by norm_num

theorem rat_three_tenths_lt_six_tenths : (3:ℚ)/10 < 6/10 := by norm_num

theorem rat_six_tenths_lt_eight_tenths : (6:ℚ)/10 < 8/10 := by norm_num

theorem rat_zero_le_one : (0:ℚ) ≤ 1 := by norm_num

/-! ### Claim theorems -/

/-- C5: for amount 150, equal chains, an existing user with average
transaction size 10 and high-risk ratio at most 0.3, the shared rule engine
scores 0.1 + 0.4 + 0.3 = 0.8, which the default thresholds classify as
"critical", not approved, "block_transaction". -/
theorem scenario_amount150_critical (tx : TransactionData)
    (hamt : tx.amountIn = 150)
    (hchain : tx.sourceChain = tx.destinationChain)
    (hnew : histIsNewUser tx.userHistory = false)
    (havg : histAvgTransactionSize tx.userHistory = 10)
    (hratio : histHighRiskRatio tx.userHistory ≤ 3/10) :
    (ruleBasedScore tx).1 = 8/10 ∧
    determineRiskLevel defaultSettings (ruleBasedScore tx).1 =
      ("critical", false, "block_transaction") := by
  have hvel : velocityTriggers tx = true := by
    simp only [velocityTriggers]
    rw [hnew, havg, hamt]
    norm_num
  have hscore : (ruleBasedScore tx).1 = 8/10 := by
    simp only [ruleBasedScore, ruleScoreRaw]
    rw [hvel, hamt, hnew]
    simp only [hchain, ne_eq, not_true_eq_false, if_false, if_true]
    rw [if_neg (not_lt.mpr hratio)]
    norm_num
  refine ⟨hscore, ?_⟩
  rw [hscore]
  simp only [determineRiskLevel, defaultSettings]
  norm_num

/-- The C5 scenario transaction: amount 150, same chain, existing user with
average size 10 and zero high-risk ratio. -/
def txScenario150 : TransactionData :=
  { amountIn := 150, sourceChain := "ethereum", destinationChain := "ethereum"
  , userAddress := none
  , userHistory := some
      { totalTransactions := 20, totalVolume := 200, avgTransactionSize := 10
      , daysSinceFirstTx := 30, highRiskRatio := 0, isNewUser := false }
  , hourOfDay := 12 }

theorem scenario_amount150_critical_witness :
    (ruleBasedScore txScenario150).1 = 8/10 ∧
    determineRiskLevel defaultSettings (ruleBasedScore txScenario150).1 =
      ("critical", false, "block_transaction") :=
  scenario_amount150_critical txScenario150 rfl rfl rfl rfl
    rat_zero_le_three_tenths

/-- C6: for amount 5, different chains and a new user the shared rule engine
scores 0.1 + 0.1 + 0.1 + 0.2 = 0.5, which the default thresholds classify as
"medium", approved, "proceed_with_monitoring". -/
theorem scenario_amount5_crosschain_medium (tx : TransactionData)
    (hamt : tx.amountIn = 5)
    (hchain : tx.sourceChain ≠ tx.destinationChain)
    (hnew : histIsNewUser tx.userHistory = true) :
    (ruleBasedScore tx).1 = 1/2 ∧
    determineRiskLevel defaultSettings (ruleBasedScore tx).1 =
      ("medium", true, "proceed_with_monitoring") := by
  have hvel : velocityTriggers tx = false := by
    simp only [velocityTriggers]
    rw [hnew]
    simp
  have hscore : (ruleBasedScore tx).1 = 1/2 := by
    simp only [ruleBasedScore, ruleScoreRaw]
    rw [hvel, hamt, hnew]
    simp only [hchain, ne_eq, not_false_eq_true, if_true]
    norm_num
  refine ⟨hscore, ?_⟩
  rw [hscore]
  simp only [determineRiskLevel, defaultSettings]
  norm_num

/-- The C6 scenario transaction: amount 5, cross-chain, new user. -/
def txScenario5 : TransactionData :=
  { amountIn := 5, sourceChain := "ethereum", destinationChain := "near"
  , userAddress := none, userHistory := none, hourOfDay := 12 }

theorem scenario_amount5_crosschain_medium_witness :
    (ruleBasedScore txScenario5).1 = 1/2 ∧
    determineRiskLevel defaultSettings (ruleBasedScore txScenario5).1 =
      ("medium", true, "proceed_with_monitoring") :=
  scenario_amount5_crosschain_medium txScenario5 rfl (by decide) rfl

/-- C9: for a chain that is neither "ethereum" nor "near" after case
folding, `check_address` answers the non-flagged verdict with zero score
increment, and `add_to_blacklist` reports failure and leaves both sets
unchanged. -/
theorem unsupported_chain_recoverable (bc : BlacklistChecker)
    (address chain reason : String)
    (h1 : pyLower chain ≠ "ethereum") (h2 : pyLower chain ≠ "near") :
    checkAddress bc address chain = cleanVerdict ∧
    (checkAddress bc address chain).isBlacklisted = false ∧
    (checkAddress bc address chain).riskScoreIncrease = 0 ∧
    addToBlacklist bc address chain reason = (bc, false) := by
  have hc : checkAddress bc address chain = cleanVerdict := by
    unfold checkAddress
    rw [if_neg h1, if_neg h2]
  have ha : addToBlacklist bc address chain reason = (bc, false) := by
    unfold addToBlacklist
    rw [if_neg h1, if_neg h2]
  exact ⟨hc, by rw [hc]; rfl, by rw [hc]; rfl, ha⟩

theorem unsupported_chain_recoverable_witness :
    checkAddress initialChecker "0xabc" "Polygon" = cleanVerdict ∧
    (checkAddress initialChecker "0xabc" "Polygon").isBlacklisted = false ∧
    (checkAddress initialChecker "0xabc" "Polygon").riskScoreIncrease = 0 ∧
    addToBlacklist initialChecker "0xabc" "Polygon" "test" =
      (initialChecker, false) :=
  unsupported_chain_recoverable initialChecker "0xabc" "Polygon" "test"
    (by decide) (by decide)

/-- C10: `extract_features` always produces a vector of exactly 16 entries
(3 amount features, 4 chain one-hot flags plus the cross-chain flag, 6
history aggregates, 2 cyclical hour features), which differs from the 15
columns of the synthetic matrix that `_initialize_basic_models` fits the
scaler, forest and classifier on. -/
theorem extract_features_length16 (log1pF sinF cosF : ℚ → ℚ)
    (tx : TransactionData) :
    (extractFeatures log1pF sinF cosF tx).length = 16 ∧
    initializeBasicModelsCols = 15 ∧
    (extractFeatures log1pF sinF cosF tx).length ≠ initializeBasicModelsCols :=
  ⟨rfl, rfl, by simp [extractFeatures, initializeBasicModelsCols]⟩

/-- C1: whenever the transaction's `user_address` is present and flagged by
the blacklist check on its source chain, `analyze_risk` of the Simple
analyzer and of the Hybrid analyzer (in any model state and under any fault
pattern) returns risk score 1, not approved, action "block_transaction" and
a risk level of "high" or "critical", for every amount and user history. -/
theorem blacklist_hit_forces_block (bc : BlacklistChecker)
    (st : RiskAnalyzerState) (fm : FaultModel) (tx : TransactionData)
    (a : String) (ha : tx.userAddress = some a) (hne : a ≠ "")
    (hbl : (checkAddress bc a tx.sourceChain).isBlacklisted = true) :
    ((simpleAnalyzeRisk bc tx).riskScore = 1 ∧
     (simpleAnalyzeRisk bc tx).approved = false ∧
     (simpleAnalyzeRisk bc tx).recommendedAction = "block_transaction" ∧
     ((simpleAnalyzeRisk bc tx).riskLevel = "high" ∨
      (simpleAnalyzeRisk bc tx).riskLevel = "critical")) ∧
    ((riskAnalyzeRisk bc st fm tx).riskScore = 1 ∧
     (riskAnalyzeRisk bc st fm tx).approved = false ∧
     (riskAnalyzeRisk bc st fm tx).recommendedAction = "block_transaction" ∧
     ((riskAnalyzeRisk bc st fm tx).riskLevel = "high" ∨
      (riskAnalyzeRisk bc st fm tx).riskLevel = "critical")) := by
  have hb : checkTxBlacklist bc tx = checkAddress bc a tx.sourceChain := by
    unfold checkTxBlacklist
    rw [ha]
    simp [hne, hbl]
  have hs : simpleAnalyzeRisk bc tx =
      blacklistHitDecision (checkAddress bc a tx.sourceChain) := by
    unfold simpleAnalyzeRisk
    rw [hb, if_pos hbl]
  have hr : riskAnalyzeRisk bc st fm tx =
      blacklistHitDecision (checkAddress bc a tx.sourceChain) := by
    unfold riskAnalyzeRisk riskAnalyzeRiskInner
    rw [hb, if_pos hbl]
  rw [hs, hr]
  exact ⟨⟨rfl, rfl, rfl, Or.inl rfl⟩, ⟨rfl, rfl, rfl, Or.inl rfl⟩⟩

/-- A transaction whose user address sits in the static Ethereum blacklist. -/
def txBlacklisted : TransactionData :=
  { amountIn := 1/2, sourceChain := "ethereum", destinationChain := "ethereum"
  , userAddress := some "0x000000000000000000000000000000000000dead"
  , userHistory := none, hourOfDay := 0 }

/-- An untrained analyzer state with a constant model oracle. -/
def stUntrained : RiskAnalyzerState :=
  { isTrained := false
  , modelOracle := fun _ =>
      { mlRiskScore := 1/2, anomalyScore := 0, isAnomaly := false
      , maxProba := 1/2 } }

theorem blacklist_hit_forces_block_witness :
    ((simpleAnalyzeRisk initialChecker txBlacklisted).riskScore = 1 ∧
     (simpleAnalyzeRisk initialChecker txBlacklisted).approved = false ∧
     (simpleAnalyzeRisk initialChecker txBlacklisted).recommendedAction =
        "block_transaction" ∧
     ((simpleAnalyzeRisk initialChecker txBlacklisted).riskLevel = "high" ∨
      (simpleAnalyzeRisk initialChecker txBlacklisted).riskLevel = "critical")) ∧
    ((riskAnalyzeRisk initialChecker stUntrained noFault txBlacklisted).riskScore = 1 ∧
     (riskAnalyzeRisk initialChecker stUntrained noFault txBlacklisted).approved = false ∧
     (riskAnalyzeRisk initialChecker stUntrained noFault txBlacklisted).recommendedAction =
        "block_transaction" ∧
     ((riskAnalyzeRisk initialChecker stUntrained noFault txBlacklisted).riskLevel = "high" ∨
      (riskAnalyzeRisk initialChecker stUntrained noFault txBlacklisted).riskLevel =
        "critical")) :=
  blacklist_hit_forces_block initialChecker stUntrained noFault txBlacklisted
    "0x000000000000000000000000000000000000dead" rfl (by decide) (by decide)

/-- A fault pattern in which the fallback path itself raises. -/
def fallbackFault : FaultModel := { mlFails := false, fallbackFails := true }

/-- C3: `analyze_risk` is total — it absorbs any exception of its body —
and when every scoring path fails (here: no blacklist hit to short-circuit
on, the ML path missing or failing, and the fallback itself raising) it
returns the fixed emergency decision: score 0.5, level "medium", not
approved, action "manual_review_required", confidence 0, and the single
system-error reason; the Simple analyzer's `except` arm returns the same
fixed decision. -/
theorem total_failure_emergency (bc : BlacklistChecker)
    (st : RiskAnalyzerState) (fm : FaultModel) (tx : TransactionData)
    (hbl : (checkTxBlacklist bc tx).isBlacklisted = false)
    (hpath : st.isTrained = false ∨ fm.mlFails = true)
    (hfb : fm.fallbackFails = true) :
    riskAnalyzeRisk bc st fm tx = riskEmergencyFallback ∧
    simpleAnalyzeRiskF true bc tx = simpleEmergencyFallback ∧
    riskEmergencyFallback.riskScore = 1/2 ∧
    riskEmergencyFallback.riskLevel = "medium" ∧
    riskEmergencyFallback.approved = false ∧
    riskEmergencyFallback.recommendedAction = "manual_review_required" ∧
    riskEmergencyFallback.mlConfidence = 0 ∧
    riskEmergencyFallback.riskFactors =
      ["Risk analysis system error - manual review required"] ∧
    simpleEmergencyFallback = riskEmergencyFallback := by
  have h1 : riskAnalyzeRiskInner bc st fm tx = Except.error "fallback raised" := by
    simp only [riskAnalyzeRiskInner, hbl, Bool.false_eq_true, if_false]
    rcases hpath with h | h
    · rw [h]
      simp [fallbackAnalysisE, hfb]
    · by_cases ht : st.isTrained <;>
        simp [ht, mlAnalysisE, fallbackAnalysisE, h, hfb]
  refine ⟨?_, rfl, rfl, rfl, rfl, rfl, rfl, rfl, rfl⟩
  simp [riskAnalyzeRisk, h1]

theorem total_failure_emergency_witness :
    riskAnalyzeRisk initialChecker stUntrained fallbackFault txScenario5 =
      riskEmergencyFallback ∧
    simpleAnalyzeRiskF true initialChecker txScenario5 = simpleEmergencyFallback ∧
    riskEmergencyFallback.riskScore = 1/2 ∧
    riskEmergencyFallback.riskLevel = "medium" ∧
    riskEmergencyFallback.approved = false ∧
    riskEmergencyFallback.recommendedAction = "manual_review_required" ∧
    riskEmergencyFallback.mlConfidence = 0 ∧
    riskEmergencyFallback.riskFactors =
      ["Risk analysis system error - manual review required"] ∧
    simpleEmergencyFallback = riskEmergencyFallback :=
  total_failure_emergency initialChecker stUntrained fallbackFault txScenario5
    (by decide) (Or.inl rfl) rfl

theorem determineRiskLevel_rank (cfg : Settings) (s : ℚ) :
    levelRank (determineRiskLevel cfg s).1 =
      if s < cfg.riskThresholdLow then 0
      else if s < cfg.riskThresholdMedium then 1
      else if s < cfg.riskThresholdHigh then 2 else 3 := by
  unfold determineRiskLevel
  split_ifs <;> rfl

theorem rank_chain_mono (t1 t2 t3 s1 s2 : ℚ) (h : s1 ≤ s2) :
    (if s1 < t1 then (0:Nat) else if s1 < t2 then 1 else if s1 < t3 then 2 else 3) ≤
    (if s2 < t1 then (0:Nat) else if s2 < t2 then 1 else if s2 < t3 then 2 else 3) := by
  split_ifs <;> first | (exfalso; linarith) | norm_num

theorem approved_chain_mono (cfg : Settings) (s1 s2 : ℚ) (h : s1 ≤ s2) :
    (determineRiskLevel cfg s1).2.1 = false →
    (determineRiskLevel cfg s2).2.1 = false := by
  unfold determineRiskLevel
  split_ifs <;> intro hx <;>
    first
      | rfl
      | exact hx.elim
      | exact Bool.noConfusion hx
      | (exfalso; linarith)

/-- C7: over any strictly ascending threshold set, the risk-level
classifier is monotone — a larger score never maps to a lower level in the
order low < medium < high < critical, and approval never switches from
false back to true; the hybrid analyzer's hard-coded copy behaves the same. -/
theorem risk_level_monotone (cfg : Settings) (s1 s2 : ℚ)
    (_hasc1 : cfg.riskThresholdLow < cfg.riskThresholdMedium)
    (_hasc2 : cfg.riskThresholdMedium < cfg.riskThresholdHigh)
    (h : s1 ≤ s2) :
    levelRank (determineRiskLevel cfg s1).1 ≤
      levelRank (determineRiskLevel cfg s2).1 ∧
    ((determineRiskLevel cfg s1).2.1 = false →
      (determineRiskLevel cfg s2).2.1 = false) ∧
    levelRank (hybridDetermineRiskLevel s1).1 ≤
      levelRank (hybridDetermineRiskLevel s2).1 ∧
    ((hybridDetermineRiskLevel s1).2.1 = false →
      (hybridDetermineRiskLevel s2).2.1 = false) := by
  have e : ∀ s, hybridDetermineRiskLevel s = determineRiskLevel defaultSettings s :=
    fun _ => rfl
  refine ⟨?_, ?_, ?_, ?_⟩
  · rw [determineRiskLevel_rank, determineRiskLevel_rank]
    exact rank_chain_mono _ _ _ _ _ h
  · exact approved_chain_mono cfg s1 s2 h
  · rw [e, e, determineRiskLevel_rank, determineRiskLevel_rank]
    exact rank_chain_mono _ _ _ _ _ h
  · rw [e, e]
    exact approved_chain_mono defaultSettings s1 s2 h

theorem risk_level_monotone_witness :
    levelRank (determineRiskLevel defaultSettings 0).1 ≤
      levelRank (determineRiskLevel defaultSettings 1).1 ∧
    ((determineRiskLevel defaultSettings 0).2.1 = false →
      (determineRiskLevel defaultSettings 1).2.1 = false) ∧
    levelRank (hybridDetermineRiskLevel 0).1 ≤
      levelRank (hybridDetermineRiskLevel 1).1 ∧
    ((hybridDetermineRiskLevel 0).2.1 = false →
      (hybridDetermineRiskLevel 1).2.1 = false) :=
  risk_level_monotone defaultSettings 0 1 rat_three_tenths_lt_six_tenths
    rat_six_tenths_lt_eight_tenths rat_zero_le_one

/-- C8: with fewer than 10 training samples, `retrain_models` answers the
explicit "Insufficient training data" error, the analyzer state (scaler,
forest, classifier, trained flag) is returned unchanged, and every scoring
call on the state after the failed retrain agrees with the state before. -/
theorem retrain_insufficient_no_mutation
    (refit : RiskAnalyzerState → List TrainingSample → RiskAnalyzerState)
    (st : RiskAnalyzerState) (samples : List TrainingSample)
    (h : samples.length < 10) :
    retrainModels refit st samples =
      (st, { status := "error", message := some "Insufficient training data"
           , samplesUsed := none }) ∧
    ∀ bc fm tx, riskAnalyzeRisk bc (retrainModels refit st samples).1 fm tx =
      riskAnalyzeRisk bc st fm tx := by
  have h1 : retrainModels refit st samples =
      (st, { status := "error", message := some "Insufficient training data"
           , samplesUsed := none }) := by
    simp [retrainModels, h]
  exact ⟨h1, fun bc fm tx => by rw [h1]⟩

/-- A refit function that would visibly mutate the state if it ran. -/
def refitShort : RiskAnalyzerState → List TrainingSample → RiskAnalyzerState :=
  fun s _ => { s with isTrained := true }

/-- Five labelled copies of the C6 scenario transaction. -/
def fiveSamples : List TrainingSample :=
  List.replicate 5 { tx := txScenario5, riskScore := 0 }

theorem retrain_insufficient_no_mutation_witness :
    retrainModels refitShort stUntrained fiveSamples =
      (stUntrained,
       { status := "error", message := some "Insufficient training data"
       , samplesUsed := none }) ∧
    ∀ bc fm tx,
      riskAnalyzeRisk bc (retrainModels refitShort stUntrained fiveSamples).1 fm tx =
        riskAnalyzeRisk bc stUntrained fm tx :=
  retrain_insufficient_no_mutation refitShort stUntrained fiveSamples (by decide)

theorem fallbackAnalysis_riskLevel (tx : TransactionData) (bl : BlacklistVerdict) :
    (fallbackAnalysis tx bl).riskLevel =
      (hybridDetermineRiskLevel (fallbackAnalysis tx bl).riskScore).1 := rfl

theorem fallbackAnalysis_approved (tx : TransactionData) (bl : BlacklistVerdict) :
    (fallbackAnalysis tx bl).approved =
      (hybridDetermineRiskLevel (fallbackAnalysis tx bl).riskScore).2.1 := rfl

theorem fallbackAnalysis_action (tx : TransactionData) (bl : BlacklistVerdict) :
    (fallbackAnalysis tx bl).recommendedAction =
      (hybridDetermineRiskLevel (fallbackAnalysis tx bl).riskScore).2.2 := rfl

theorem simpleRuleBasedAnalysis_riskLevel (tx : TransactionData)
    (bl : BlacklistVerdict) :
    (simpleRuleBasedAnalysis tx bl).riskLevel =
      (hybridDetermineRiskLevel (simpleRuleBasedAnalysis tx bl).riskScore).1 := rfl

theorem simpleRuleBasedAnalysis_approved (tx : TransactionData)
    (bl : BlacklistVerdict) :
    (simpleRuleBasedAnalysis tx bl).approved =
      (hybridDetermineRiskLevel (simpleRuleBasedAnalysis tx bl).riskScore).2.1 := rfl

theorem simpleRuleBasedAnalysis_action (tx : TransactionData)
    (bl : BlacklistVerdict) :
    (simpleRuleBasedAnalysis tx bl).recommendedAction =
      (hybridDetermineRiskLevel (simpleRuleBasedAnalysis tx bl).riskScore).2.2 := rfl

theorem fallback_score_eq_simple_score (tx : TransactionData)
    (hvel : velocityTriggers tx = false) (bl : BlacklistVerdict) :
    (fallbackAnalysis tx bl).riskScore = (simpleRuleBasedAnalysis tx bl).riskScore := by
  show min (hybridRuleScore tx + bl.riskScoreIncrease) 1 =
    min (ruleScoreRaw tx + bl.riskScoreIncrease) 1
  rw [hybridRuleScore_eq_rule_min tx hvel,
    min_eq_left (le_trans (ruleScoreRaw_le_of_no_velocity tx hvel) (by norm_num))]

/-- C2 counterexample: on the concrete C6 scenario transaction the Hybrid
analyzer's fallback decision differs from the Simple analyzer's decision
(confidence 0.6 vs 0.7, and coarser factor strings). -/
theorem fallback_vs_simple_counterexample :
    riskAnalyzeRisk initialChecker stUntrained noFault txScenario5 ≠
      simpleAnalyzeRisk initialChecker txScenario5 := by
  intro h
  have h2 := congrArg Decision.mlConfidence h
  simp [riskAnalyzeRisk, riskAnalyzeRiskInner, checkTxBlacklist, fallbackAnalysisE,
    fallbackAnalysis, simpleAnalyzeRisk, simpleRuleBasedAnalysis, stUntrained,
    txScenario5, noFault, cleanVerdict] at h2
  norm_num at h2

/-- C2 (amended): when the Hybrid analyzer's model layer is unavailable the
fallback decision carries the same risk score, level, approval and action as
the Simple analyzer's decision whenever the Simple path's velocity rule does
not fire (the hybrid rule engine has no velocity term), but the fallback
confidence is 0.6 — not the Simple path's 0.7 — and the factor strings are
the fallback's own coarser set. -/
theorem fallback_matches_simple_no_velocity (bc : BlacklistChecker)
    (st : RiskAnalyzerState) (fm : FaultModel) (tx : TransactionData)
    (hTr : st.isTrained = false) (hfb : fm.fallbackFails = false)
    (hvel : velocityTriggers tx = false) :
    (riskAnalyzeRisk bc st fm tx).riskScore = (simpleAnalyzeRisk bc tx).riskScore ∧
    (riskAnalyzeRisk bc st fm tx).riskLevel = (simpleAnalyzeRisk bc tx).riskLevel ∧
    (riskAnalyzeRisk bc st fm tx).approved = (simpleAnalyzeRisk bc tx).approved ∧
    (riskAnalyzeRisk bc st fm tx).recommendedAction =
      (simpleAnalyzeRisk bc tx).recommendedAction ∧
    ((checkTxBlacklist bc tx).isBlacklisted = false →
      (riskAnalyzeRisk bc st fm tx).mlConfidence = 6/10 ∧
      (simpleAnalyzeRisk bc tx).mlConfidence = 7/10) := by
  by_cases hbl : (checkTxBlacklist bc tx).isBlacklisted = true
  · have hr : riskAnalyzeRisk bc st fm tx =
        blacklistHitDecision (checkTxBlacklist bc tx) := by
      simp [riskAnalyzeRisk, riskAnalyzeRiskInner, hbl]
    have hs : simpleAnalyzeRisk bc tx =
        blacklistHitDecision (checkTxBlacklist bc tx) := by
      simp [simpleAnalyzeRisk, hbl]
    rw [hr, hs]
    exact ⟨rfl, rfl, rfl, rfl, fun hf => absurd hf (by simp [hbl])⟩
  · have hbl' : (checkTxBlacklist bc tx).isBlacklisted = false := by
      simpa using hbl
    have hclean := checkTxBlacklist_eq_clean bc tx hbl'
    have hr : riskAnalyzeRisk bc st fm tx = fallbackAnalysis tx cleanVerdict := by
      simp [riskAnalyzeRisk, riskAnalyzeRiskInner, hclean, cleanVerdict, hTr,
        fallbackAnalysisE, hfb]
    have hs : simpleAnalyzeRisk bc tx = simpleRuleBasedAnalysis tx cleanVerdict := by
      simp [simpleAnalyzeRisk, hclean, cleanVerdict]
    rw [hr, hs]
    have hsc := fallback_score_eq_simple_score tx hvel cleanVerdict
    refine ⟨hsc, ?_, ?_, ?_, fun _ => ⟨rfl, rfl⟩⟩
    · rw [fallbackAnalysis_riskLevel, simpleRuleBasedAnalysis_riskLevel, hsc]
    · rw [fallbackAnalysis_approved, simpleRuleBasedAnalysis_approved, hsc]
    · rw [fallbackAnalysis_action, simpleRuleBasedAnalysis_action, hsc]

theorem fallback_matches_simple_no_velocity_witness :
    (riskAnalyzeRisk initialChecker stUntrained noFault txScenario5).riskScore =
      (simpleAnalyzeRisk initialChecker txScenario5).riskScore ∧
    (riskAnalyzeRisk initialChecker stUntrained noFault txScenario5).riskLevel =
      (simpleAnalyzeRisk initialChecker txScenario5).riskLevel ∧
    (riskAnalyzeRisk initialChecker stUntrained noFault txScenario5).approved =
      (simpleAnalyzeRisk initialChecker txScenario5).approved ∧
    (riskAnalyzeRisk initialChecker stUntrained noFault txScenario5).recommendedAction =
      (simpleAnalyzeRisk initialChecker txScenario5).recommendedAction ∧
    ((checkTxBlacklist initialChecker txScenario5).isBlacklisted = false →
      (riskAnalyzeRisk initialChecker stUntrained noFault txScenario5).mlConfidence =
        6/10 ∧
      (simpleAnalyzeRisk initialChecker txScenario5).mlConfidence = 7/10) :=
  fallback_matches_simple_no_velocity initialChecker stUntrained noFault txScenario5
    rfl rfl (by decide)

/-- An established, low-risk user profile for which
`_identify_risk_factors` produces no factor strings. -/
def txQuiet : TransactionData :=
  { amountIn := 5, sourceChain := "ethereum", destinationChain := "ethereum"
  , userAddress := none
  , userHistory := some
      { totalTransactions := 10, totalVolume := 1000, avgTransactionSize := 100
      , daysSinceFirstTx := 30, highRiskRatio := 0, isNewUser := false }
  , hourOfDay := 0 }

/-- A trained analyzer state with a constant model oracle. -/
def stTrained : RiskAnalyzerState :=
  { isTrained := true
  , modelOracle := fun _ =>
      { mlRiskScore := 1/2, anomalyScore := 0, isAnomaly := false
      , maxProba := 1/2 } }

/-- C4 counterexample: on the Hybrid ML path `_identify_risk_factors` can
return no factors at all (established user, moderate amount, no blacklist
reason), so `analyze_risk` returns a decision with an empty factor list. -/
theorem ml_empty_factors_counterexample :
    (riskAnalyzeRisk initialChecker stTrained noFault txQuiet).riskFactors = [] := by
  norm_num [riskAnalyzeRisk, riskAnalyzeRiskInner, checkTxBlacklist, mlAnalysisE,
    mlAnalysis, identifyRiskFactors, stTrained, txQuiet, noFault, cleanVerdict,
    histIsNewUser, histHighRiskRatio, histTotalTransactions,
    histAvgTransactionSize]

theorem factors_placeholder_ne (p : String) (l : List String) :
    (if l = [] then [p] else l) ≠ [] := by
  split <;> simp_all

theorem simpleRuleBasedAnalysis_factors_nonempty (tx : TransactionData)
    (bl : BlacklistVerdict) :
    (simpleRuleBasedAnalysis tx bl).riskFactors ≠ [] :=
  factors_placeholder_ne _ _

theorem fallbackAnalysis_factors_nonempty (tx : TransactionData)
    (bl : BlacklistVerdict) :
    (fallbackAnalysis tx bl).riskFactors ≠ [] :=
  factors_placeholder_ne _ _

/-- C4 (amended): the factor list is non-empty on every path except the
Hybrid ML path — the Simple analyzer always (normal, blacklist and
emergency paths), and the Hybrid analyzer on its blacklist short-circuit,
fallback and emergency paths. -/
theorem risk_factors_nonempty_outside_ml (bc : BlacklistChecker)
    (st : RiskAnalyzerState) (fm : FaultModel) (tx : TransactionData)
    (fault : Bool)
    (h : st.isTrained = false ∨ fm.mlFails = true ∨
         (checkTxBlacklist bc tx).isBlacklisted = true) :
    (simpleAnalyzeRiskF fault bc tx).riskFactors ≠ [] ∧
    (riskAnalyzeRisk bc st fm tx).riskFactors ≠ [] := by
  constructor
  · cases fault
    · by_cases hbl : (checkTxBlacklist bc tx).isBlacklisted = true
      · have hs : simpleAnalyzeRiskF false bc tx =
            blacklistHitDecision (checkTxBlacklist bc tx) := by
          simp [simpleAnalyzeRiskF, simpleAnalyzeRisk, hbl]
        rw [hs]
        simp [blacklistHitDecision]
      · have hbl' : (checkTxBlacklist bc tx).isBlacklisted = false := by
          simpa using hbl
        have hs : simpleAnalyzeRiskF false bc tx =
            simpleRuleBasedAnalysis tx (checkTxBlacklist bc tx) := by
          simp [simpleAnalyzeRiskF, simpleAnalyzeRisk, hbl']
        rw [hs]
        exact simpleRuleBasedAnalysis_factors_nonempty _ _
    · simp [simpleAnalyzeRiskF, simpleEmergencyFallback]
  · by_cases hbl : (checkTxBlacklist bc tx).isBlacklisted = true
    · have hr : riskAnalyzeRisk bc st fm tx =
          blacklistHitDecision (checkTxBlacklist bc tx) := by
        simp [riskAnalyzeRisk, riskAnalyzeRiskInner, hbl]
      rw [hr]
      simp [blacklistHitDecision]
    · have hbl' : (checkTxBlacklist bc tx).isBlacklisted = false := by
        simpa using hbl
      have hpath : st.isTrained = false ∨ fm.mlFails = true := by
        rcases h with h1 | h1 | h1
        · exact Or.inl h1
        · exact Or.inr h1
        · exact absurd h1 hbl
      have hroute : riskAnalyzeRiskInner bc st fm tx =
          fallbackAnalysisE fm tx (checkTxBlacklist bc tx) := by
        rcases hpath with h1 | h1
        · simp [riskAnalyzeRiskInner, hbl', h1]
        · by_cases ht : st.isTrained = true <;>
            simp [riskAnalyzeRiskInner, hbl', ht, mlAnalysisE, h1]
      by_cases hf : fm.fallbackFails = true
      · have hr : riskAnalyzeRisk bc st fm tx = riskEmergencyFallback := by
          simp [riskAnalyzeRisk, hroute, fallbackAnalysisE, hf]
        rw [hr]
        simp [riskEmergencyFallback]
      · have hf' : fm.fallbackFails = false := by simpa using hf
        have hr : riskAnalyzeRisk bc st fm tx =
            fallbackAnalysis tx (checkTxBlacklist bc tx) := by
          simp [riskAnalyzeRisk, hroute, fallbackAnalysisE, hf']
        rw [hr]
        exact fallbackAnalysis_factors_nonempty _ _

theorem risk_factors_nonempty_outside_ml_witness :
    (simpleAnalyzeRiskF false initialChecker txScenario5).riskFactors ≠ [] ∧
    (riskAnalyzeRisk initialChecker stUntrained noFault txScenario5).riskFactors ≠ [] :=
  risk_factors_nonempty_outside_ml initialChecker stUntrained noFault txScenario5
    false (Or.inl rfl)

end Kembridge
